import Mathlib

/-!
Shallow embedding of the voice-bot backend's session orchestration pipeline
(`vtuber_backend/core/app.py`), the OpenRouter LLM client
(`vtuber_backend/llm/openRouter.py`) and the TTS engine cache
(`vtuber_backend/tts/engine.py`).

External collaborators (the FAISS retriever, the HTTP layer used by the LLM
client, the edge-tts synthesis subprocess, and Python's `unicodedata`
category table) are modelled as oracle functions passed in explicitly.
Machine-level details (base64, audio bytes, sockets) are opaque strings.
-/

namespace Vtuber

/-- A chat message dict `{"role": ..., "content": ...}` as used throughout
`app.py` and `openRouter.py`. -/
structure Msg where
  role : String
  content : String
deriving DecidableEq, Repr

/-! ## openRouter.py : OpenRouterLLM -/

/-- `OpenRouterLLM.__init__` default `character_name`. -/
def character_name : String := "Nana"

/-- `OpenRouterLLM.__init__` default `character_persona` (the f-string
concatenation built when `character_persona is None`; `app.py` constructs
`OpenRouterLLM()` with all defaults). -/
def character_persona : String :=
  "You are Nana, a helpful and friendly NQU AI assistant. " ++
  "You are cheerful, supportive, and always ready to help. " ++
  "Keep your responses concise and natural, as if speaking in a conversation. " ++
  "You can help with information, answer questions, or just chat." ++
  "give me short answer."

/-- The parsed JSON `result["choices"][i]["message"]` object: `content` key
may be absent. -/
structure MessageJ where
  content? : Option String
deriving DecidableEq, Repr

/-- One element of `result["choices"]`: the `message` key may be absent. -/
structure ChoiceJ where
  message? : Option MessageJ
deriving DecidableEq, Repr

/-- The parsed JSON body of a 2xx OpenRouter response: the `choices` key may
be absent. -/
structure APIResult where
  choices? : Option (List ChoiceJ)
deriving DecidableEq, Repr

/-- Outcome of the HTTP round trip in `generate_response`
(`requests.post` + `raise_for_status` + `response.json()`), classified by
which exception class (if any) the library raises — exactly the classes the
`except` clauses of `generate_response` distinguish. A non-2xx status makes
`raise_for_status` raise an `HTTPError`, a subclass of
`requests.exceptions.RequestException`. -/
inductive HTTPOutcome where
  | requestError            -- requests.exceptions.RequestException
  | jsonError               -- json.JSONDecodeError
  | otherError              -- any other Exception
  | ok (result : APIResult) -- 2xx with a parsed JSON body
deriving DecidableEq, Repr

/-- Literal from `generate_response` (unexpected response format path). -/
def apology_process : String :=
  "I'm sorry, I couldn't process your request properly."

/-- Literal from the `requests.exceptions.RequestException` handler. -/
def apology_network : String :=
  "I'm sorry, I encountered a network error. Please try again later."

/-- Literal from the `json.JSONDecodeError` handler. -/
def apology_format : String :=
  "I'm sorry, I received an invalid response format. Please try again later."

/-- Literal from the catch-all `Exception` handler. -/
def apology_generic : String :=
  "I'm sorry, I encountered an error. Please try again later."

/-- Python slice `l[-n:]` on a message list (used as
`conversation_history[-10:]` and `history[-20:]`). -/
def sliceLast (n : Nat) (l : List Msg) : List Msg :=
  l.drop (l.length - n)

/-- The `messages` list assembled by `OpenRouterLLM.generate_response`
before the HTTP request: system prompt, then `conversation_history[-10:]`
when the history is non-empty, then the `prompt` appended as a user message
only when the history is empty or its last entry is not user-role. -/
def buildMessages (system_prompt prompt : String) (conversation_history : List Msg) :
    List Msg :=
  let messages := [Msg.mk "system" system_prompt]
  let messages :=
    if conversation_history.isEmpty then messages
    else messages ++ sliceLast 10 conversation_history
  if conversation_history.isEmpty ∨
      (conversation_history.getLast?.map Msg.role) ≠ some "user" then
    messages ++ [Msg.mk "user" prompt]
  else messages

/-- The response-text extraction of `generate_response`: returns
`result["choices"][0]["message"]["content"]` when every key is present and
`choices` is non-empty, else the "couldn't process" apology. -/
def extract_response (result : APIResult) : String :=
  match result.choices? with
  | some (c :: _) =>
    match c.message? with
    | some m =>
      match m.content? with
      | some s => s
      | none => apology_process
    | none => apology_process
  | _ => apology_process

/-- Map from HTTP outcome to the string `generate_response` returns — each
`except` clause converts its exception class to a fixed apology literal. -/
def outcomeText : HTTPOutcome → String
  | .requestError => apology_network
  | .jsonError => apology_format
  | .otherError => apology_generic
  | .ok result => extract_response result

/-- Whether an HTTP outcome is a provider failure (an exception was
raised somewhere in the try block). -/
def HTTPOutcome.isFailure : HTTPOutcome → Bool
  | .ok _ => false
  | _ => true

/-- `OpenRouterLLM.generate_response(prompt, conversation_history)` with the
default system prompt (`system_prompt=None` in all call sites of `app.py`):
build `messages`, perform the HTTP call (oracle `http`), and convert any
raised exception to its fixed apology string. Never raises. -/
def generate_response (http : List Msg → HTTPOutcome)
    (prompt : String) (conversation_history : List Msg) : String :=
  outcomeText (http (buildMessages character_persona prompt conversation_history))

/-! ## app.py : prompt template, requests, sessions, orchestrator -/

/-- First fixed piece of `prompt_template`, up to the
`{retrieved_chunks}` hole. -/
def prompt_template_part1 : String := "根據下列資料回答問題："

/-- Second fixed piece of `prompt_template`, between the
`{retrieved_chunks}` and `{question}` holes. -/
def prompt_template_part2 : String := "\n使用者的問題是："

/-- Last fixed piece of `prompt_template`, after the `{question}` hole. -/
def prompt_template_part3 : String :=
  "\n請根據資料內容回覆，若資料不足請告訴同學可以請教金門大學的老師。"

/-- `prompt_template.format(retrieved_chunks=..., question=...)`. -/
def format_prompt (retrieved_chunks question : String) : String :=
  prompt_template_part1 ++ retrieved_chunks ++ prompt_template_part2 ++
    question ++ prompt_template_part3

/-- `"\n\n".join([doc.page_content for doc in docs])`. -/
def joinChunks (docs : List String) : String :=
  String.intercalate "\n\n" docs

/-- Per-connection session state: `conversation_history[conn_id]` and
`emotion_state.get(conn_id)`. -/
structure Session where
  history : List Msg
  emotion : Option String
deriving DecidableEq, Repr

/-- State of a fresh connection: `conversation_history[conn_id] = []`,
no `emotion_state` entry. -/
def emptySession : Session := ⟨[], none⟩

/-- External collaborators of the orchestrator.
`retr` is `retriever.get_relevant_documents` (may raise, modelled as
`Except`, returning the passages' `page_content`); `http` is the LLM
client's HTTP layer; `tts` is `tts_engine.generate_speech`, which is total
and returns `""` on synthesis failure. -/
structure Env where
  retr : String → Except Unit (List String)
  http : List Msg → HTTPOutcome
  tts : String → String

/-- Outbound JSON frames sent by `app.py` (`send_json` payloads). -/
inductive Outbound where
  | response (text audio : String)
  | emotionInteraction (emotion text audio : String)
deriving DecidableEq, Repr

/-- A parsed inbound JSON message, as a dict whose keys may be absent
(`request["type"]`, `request["content"]`, `request["emotion"]`). -/
structure Request where
  type? : Option String
  content? : Option String
  emotion? : Option String
deriving DecidableEq, Repr

/-- A well-formed `text_input` frame. -/
def mkTextInput (c : String) : Request := ⟨some "text_input", some c, none⟩

/-- A well-formed `emotion_update` frame. -/
def mkEmotionUpdate (e : String) : Request := ⟨some "emotion_update", none, some e⟩

/-- An exception escaping the loop body of `websocket_endpoint`; it is
caught by the connection-level `except Exception` handler, which logs and
ends the receive loop. -/
inductive LoopErr where
  | keyError       -- a missing dict key (request["type"] / request["content"])
  | retrievalError -- an exception raised by retriever.get_relevant_documents
deriving DecidableEq, Repr

/-- Lines 188–191 of `app.py`: `if len(history) > 20: history = history[-20:]`. -/
def truncateHistory (history : List Msg) : List Msg :=
  if history.length > 20 then sliceLast 20 history else history

/-- One iteration of the `while True` receive loop of `websocket_endpoint`,
for one parsed inbound message: returns the new session and the outbound
frames sent, or the exception that escaped the loop body. Mirrors
lines 167–212 of `app.py`:
`request["type"]` (KeyError when absent); for `"text_input"`:
`request["content"]` (KeyError when absent, raised by the logging f-string
at line 168 before any mutation), retrieval (uncaught on error), prompt
formatting, user-role append, LLM call, assistant-role append, truncation
to the last 20, TTS, and the `response` frame; for `"emotion_update"`:
store the emotion when the key is present; any other tag falls through both
branches. -/
def handle_request (env : Env) (request : Request) (s : Session) :
    Except LoopErr (Session × List Outbound) :=
  match request.type? with
  | none => .error .keyError
  | some t =>
    if t = "text_input" then
      match request.content? with
      | none => .error .keyError
      | some user_input =>
        match env.retr user_input with
        | .error _ => .error .retrievalError
        | .ok docs =>
          let retrieved_chunks := joinChunks docs
          let final_prompt := format_prompt retrieved_chunks user_input
          let history := s.history ++ [Msg.mk "user" final_prompt]
          let response_text := generate_response env.http final_prompt history
          let history := history ++ [Msg.mk "assistant" response_text]
          let history := truncateHistory history
          let audio_data := env.tts response_text
          .ok (⟨history, s.emotion⟩, [Outbound.response response_text audio_data])
    else if t = "emotion_update" then
      match request.emotion? with
      | some e => .ok (⟨s.history, some e⟩, [])
      | none => .ok (s, [])
    else .ok (s, [])

/-- The receive loop of `websocket_endpoint` over a sequence of inbound
messages on one connection: processed strictly in order; the first
exception escaping the loop body is caught by the connection-level handler,
ending the loop — the failing message gets no reply and the remaining
messages are never received. Returns the final session and all outbound
frames sent. -/
def websocket_loop (env : Env) (requests : List Request) (s : Session) :
    Session × List Outbound :=
  match requests with
  | [] => (s, [])
  | r :: rest =>
    match handle_request env r s with
    | .error _ => (s, [])
    | .ok (s', outs) =>
      ((websocket_loop env rest s').1, outs ++ (websocket_loop env rest s').2)

/-- Literal from `trigger_emotion_interaction`, the `"sad"` branch. -/
def sad_prompt : String := "The user looks sad. Ask if they're okay in a caring way."

/-- Literal from `trigger_emotion_interaction`, the `"angry"` branch. -/
def angry_prompt : String := "The user looks upset. Ask if something is bothering them."

/-- `trigger_emotion_interaction(websocket, emotion)` of `app.py`
(lines 119–146): a fixed emotion→prompt table with entries for `"sad"` and
`"angry"` only (any other label returns before any call); on a hit,
`llm.generate_response(prompt, [])` with an *empty* history, then TTS, then
one `emotion_interaction` frame. The function never touches
`conversation_history` or `emotion_state`; the session is threaded through
to expose that. -/
def trigger_emotion_interaction (env : Env) (emotion : String) (s : Session) :
    Session × List Outbound :=
  match (if emotion = "sad" then some sad_prompt
         else if emotion = "angry" then some angry_prompt
         else none) with
  | none => (s, [])
  | some prompt =>
    let response := generate_response env.http prompt []
    let audio_data := env.tts response
    (s, [Outbound.emotionInteraction emotion response audio_data])

/-! ## tts/engine.py : TTSEngine -/

/-- `TTSEngine.__init__` default `cache_size`. -/
def cache_size_default : Nat := 100

/-- `TTSEngine.sanitize_text`: keep a character iff
`unicodedata.category(c)[0] != "C"` and `not (0x1F000 <= ord(c) <= 0x1FAFF)`.
The `unicodedata` category table is external; `isCcategory c` is the oracle
for `unicodedata.category(c)[0] == "C"`. -/
def sanitize_text (isCcategory : Char → Bool) (text : String) : String :=
  String.mk (text.toList.filter
    (fun c => !(isCcategory c) && !(decide (0x1F000 ≤ c.toNat) && decide (c.toNat ≤ 0x1FAFF))))

/-- The TTS cache `self.cache: Dict[str, str]`, modelled as an
insertion-ordered association list (CPython 3.7+ dict semantics). -/
abbrev Cache := List (String × String)

/-- Python `text in self.cache` / `self.cache[text]`. -/
def lookupCache (cache : Cache) (k : String) : Option String :=
  (List.find? (fun p => p.1 = k) cache).map Prod.snd

/-- Python `self.cache[text] = audio_data`: an existing key keeps its
original insertion position and gets the new value; a new key is appended
at the end. -/
def insertCache (cache : Cache) (k v : String) : Cache :=
  if List.any cache (fun p => p.1 = k) then
    List.map (fun p => if p.1 = k then (k, v) else p) cache
  else cache ++ [(k, v)]

/-- `TTSEngine._update_cache`: insert, then, when the dict exceeds
`cache_size`, delete the first `len - cache_size` keys in iteration
(= insertion) order. -/
def update_cache (cache_size : Nat) (cache : Cache) (text audio_data : String) : Cache :=
  let cache := insertCache cache text audio_data
  if cache.length > cache_size then cache.drop (cache.length - cache_size)
  else cache

/-- `TTSEngine.generate_speech(text)`: cache lookup on the *raw* `text`
first; on a miss, rebind `text = sanitize_text(text)`, synthesize (oracle
`synth`, `none` models CLI failure or any raised exception, giving `""`),
cache the audio under the *sanitized* text, and return it. Returns the
audio string and the updated cache. -/
def generate_speech (isCcategory : Char → Bool) (use_cache : Bool) (cache_size : Nat)
    (synth : String → Option String) (cache : Cache) (text : String) :
    String × Cache :=
  match (if use_cache then lookupCache cache text else none) with
  | some cached => (cached, cache)
  | none =>
    let text := sanitize_text isCcategory text
    match synth text with
    | none => ("", cache)
    | some audio_data =>
      let cache' := if use_cache then update_cache cache_size cache text audio_data
                    else cache
      (audio_data, cache')

/-- The cache state after a sequence of `generate_speech` calls. -/
def runSpeechCalls (isCcategory : Char → Bool) (cache_size : Nat)
    (synth : String → Option String) (cache : Cache) : List String → Cache
  | [] => cache
  | t :: ts =>
    runSpeechCalls isCcategory cache_size synth
      (generate_speech isCcategory true cache_size synth cache t).2 ts

/-- The cache state after a sequence of raw `_update_cache` insertions. -/
def foldInserts (cache_size : Nat) (cache : Cache)
    (inserts : List (String × String)) : Cache :=
  inserts.foldl (fun c kv => update_cache cache_size c kv.1 kv.2) cache

/-! ## Predicates and concrete instances used by the claims -/

/-- A conversation history of the shape the pipeline produces: strictly
alternating user/assistant entries starting with a user entry, in complete
pairs. -/
inductive Chat : List Msg → Prop where
  | nil : Chat []
  | pair (u a : String) {t : List Msg} (h : Chat t) :
      Chat (Msg.mk "user" u :: Msg.mk "assistant" a :: t)

/-- The per-session invariant: bounded, alternating history. -/
def SessionInv (s : Session) : Prop :=
  Chat s.history ∧ s.history.length ≤ 20

/-- Every key of the TTS cache is a fixed point of `sanitize_text`. -/
def sanitizedKeys (isCcategory : Char → Bool) (cache : Cache) : Prop :=
  ∀ p ∈ cache, sanitize_text isCcategory p.1 = p.1

/-- Modelled from the spec: the message list claim C3 says the Language
Model Provider receives — the fixed system persona followed by the
Conversation History already truncated to its most recent 20 entries, with
nothing further appended. Stated for refinement comparison against
`buildMessages` (the list the source actually assembles). -/
def claimedMessages (history : List Msg) : List Msg :=
  Msg.mk "system" character_persona :: truncateHistory history

/-- An environment whose retriever raises on every query. -/
def envRetrFail : Env :=
  ⟨fun _ => .error (), fun _ => .requestError, fun _ => ""⟩

/-- An environment whose retriever returns no passages and whose LLM call
succeeds with the fixed reply text `"ok"`. -/
def envOk : Env :=
  ⟨fun _ => .ok [], fun _ => .ok ⟨some [⟨some ⟨some "ok"⟩⟩]⟩, fun _ => ""⟩

/-- An environment whose LLM call succeeds and answers with the *number of
messages it received*, making the provider input observable in the reply. -/
def envCount : Env :=
  ⟨fun _ => .ok [],
   fun msgs => .ok ⟨some [⟨some ⟨some (toString msgs.length)⟩⟩]⟩,
   fun _ => ""⟩

/-- An environment whose LLM HTTP layer always raises
`requests.exceptions.RequestException`. -/
def envNet : Env := ⟨fun _ => .ok [], fun _ => .requestError, fun _ => ""⟩

/-- An environment whose LLM HTTP layer always raises
`json.JSONDecodeError`. -/
def envJson : Env := ⟨fun _ => .ok [], fun _ => .jsonError, fun _ => ""⟩

/-- The conversation history passed to `generate_response` on the sixth
`text_input` of a connection (five completed exchanges against `envCount`,
plus the just-appended augmented prompt). -/
def historyAtSixthCall : List Msg :=
  (websocket_loop envCount (List.replicate 5 (mkTextInput "q")) emptySession).1.history
    ++ [Msg.mk "user" (format_prompt "" "q")]

/-- Conclusion for claim C3 (amended): the `messages` the provider
receives are the fixed persona followed by the last **10** entries of the
history as passed — whose final, user-role entry already carries the
augmented prompt, so the `prompt` argument is not appended again — and the
exchange's result is built from exactly that provider reply. The history is
not truncated to 20 before the call. -/
def LLMSeesLastTen (env : Env) (c : String) (s : Session) (docs : List String) : Prop :=
  buildMessages character_persona (format_prompt (joinChunks docs) c)
      (s.history ++ [Msg.mk "user" (format_prompt (joinChunks docs) c)]) =
    Msg.mk "system" character_persona ::
      sliceLast 10 (s.history ++ [Msg.mk "user" (format_prompt (joinChunks docs) c)]) ∧
  handle_request env (mkTextInput c) s =
    .ok (⟨truncateHistory (s.history ++
            [Msg.mk "user" (format_prompt (joinChunks docs) c),
             Msg.mk "assistant" (generate_response env.http
               (format_prompt (joinChunks docs) c)
               (s.history ++ [Msg.mk "user" (format_prompt (joinChunks docs) c)]))]),
          s.emotion⟩,
         [Outbound.response
           (generate_response env.http (format_prompt (joinChunks docs) c)
             (s.history ++ [Msg.mk "user" (format_prompt (joinChunks docs) c)]))
           (env.tts (generate_response env.http (format_prompt (joinChunks docs) c)
             (s.history ++ [Msg.mk "user" (format_prompt (joinChunks docs) c)])))])

/-- Conclusion for the empty-retrieval half of claim C1: the exchange
continues and emits exactly one `response`, whose reply is generated from
the prompt built with empty retrieved context. -/
def EmptyRetrievalContinues (env : Env) (c : String) (s : Session) : Prop :=
  ∃ s', handle_request env (mkTextInput c) s =
    .ok (s', [Outbound.response
      (generate_response env.http (format_prompt "" c)
        (s.history ++ [Msg.mk "user" (format_prompt "" c)]))
      (env.tts (generate_response env.http (format_prompt "" c)
        (s.history ++ [Msg.mk "user" (format_prompt "" c)])))])

/-- Conclusion for the retrieval-error half of claim C1: the exception
escapes the loop body, so the message gets no reply, the session is
unchanged, and the receive loop ends. -/
def RetrievalErrorAborts (env : Env) (c : String) (s : Session) : Prop :=
  handle_request env (mkTextInput c) s = .error .retrievalError ∧
  ∀ rest, websocket_loop env (mkTextInput c :: rest) s = (s, [])

/-- Conclusion for claim C2, missing-field half: a `KeyError` escapes the
loop body; no reply, no session mutation, and the receive loop ends, so
subsequent messages are never processed. -/
def MissingFieldAborts (env : Env) (s : Session) (r : Request) : Prop :=
  handle_request env r s = .error .keyError ∧
  ∀ rest, websocket_loop env (r :: rest) s = (s, [])

/-- Conclusion for claim C2, unknown-tag half: the message falls through
both branches; no reply, no mutation, and the loop goes on to the next
message. -/
def UnknownTagIgnored (env : Env) (s : Session) (r : Request) : Prop :=
  handle_request env r s = .ok (s, []) ∧
  ∀ rest, websocket_loop env (r :: rest) s = websocket_loop env rest s

/-- Conclusion for claim C5 (amended): the exchange emits exactly one
`response` whose text is the fixed apology for the HTTP outcome `o`, and
that same text is the final (assistant-role) history entry. -/
def ApologyExchange (env : Env) (c : String) (s : Session) (o : HTTPOutcome) : Prop :=
  ∃ s', handle_request env (mkTextInput c) s =
      .ok (s', [Outbound.response (outcomeText o) (env.tts (outcomeText o))]) ∧
    s'.history.getLast? = some (Msg.mk "assistant" (outcomeText o))

/-- Conclusion for claim C8: with no retrieved passages the augmented
prompt is exactly the instruction template around the literal question, and
that prompt is the user-role entry persisted by the exchange. -/
def EmptyContextPrompt (env : Env) (c : String) (s : Session) : Prop :=
  joinChunks [] = "" ∧
  format_prompt (joinChunks []) c =
    prompt_template_part1 ++ prompt_template_part2 ++ c ++ prompt_template_part3 ∧
  ∃ s' reply audio,
    handle_request env (mkTextInput c) s = .ok (s', [Outbound.response reply audio]) ∧
    s'.history.dropLast.getLast? =
      some (Msg.mk "user" (format_prompt (joinChunks []) c))

/-- Conclusion for claim C6: the first `generate_speech` call returns the
synthesized audio; a second call with the same text hits the cache exactly
when the text is already sanitized, because the entry was stored under the
sanitized key while the lookup uses the raw text; and against any cache
built solely by `generate_speech`, a non-sanitized text never hits. -/
def SpeechSecondCall (isCcategory : Char → Bool) (synth : String → Option String)
    (cache_size : Nat) (cache : Cache) (t audio : String) : Prop :=
  (generate_speech isCcategory true cache_size synth cache t).1 = audio ∧
  (sanitize_text isCcategory t = t →
    generate_speech isCcategory true cache_size synth
        (generate_speech isCcategory true cache_size synth cache t).2 t
      = (audio, (generate_speech isCcategory true cache_size synth cache t).2)) ∧
  (sanitize_text isCcategory t ≠ t →
    lookupCache (generate_speech isCcategory true cache_size synth cache t).2 t = none) ∧
  (∀ ts : List String, sanitize_text isCcategory t ≠ t →
    lookupCache (runSpeechCalls isCcategory cache_size synth [] ts) t = none)

/-- Conclusion for claim C7: the cache never exceeds its capacity after any
sequence of `_update_cache` insertions, eviction keeps a suffix of the
insertion order (the oldest-inserted entries are dropped), and the default
capacity is 100. -/
def CacheBound (cache_size : Nat) (c0 : Cache) (inserts : List (String × String)) : Prop :=
  (foldInserts cache_size c0 inserts).length ≤ cache_size ∧
  (∀ (c : Cache) (k v : String),
    update_cache cache_size c k v <:+ insertCache c k v) ∧
  cache_size_default = 100

/-! ## Helper lemmas -/

theorem chat_append_pair {h : List Msg} (hc : Chat h) (u a : String) :
    Chat (h ++ [Msg.mk "user" u, Msg.mk "assistant" a]) := by
  induction hc with
  | nil => exact Chat.pair u a Chat.nil
  | pair u' a' h' ih => simpa using Chat.pair u' a' ih

theorem chat_length_even {h : List Msg} (hc : Chat h) : h.length % 2 = 0 := by
  induction hc with
  | nil => rfl
  | pair u a h ih => simp only [List.length_cons]; omega

theorem chat_drop_two {l : List Msg} (hc : Chat l) : Chat (l.drop 2) := by
  cases hc with
  | nil => exact Chat.nil
  | pair u a h => simpa using h

theorem truncate_step {h : List Msg} (hc : Chat h) (hlen : h.length ≤ 20)
    (u a : String) :
    Chat (truncateHistory (h ++ [Msg.mk "user" u, Msg.mk "assistant" a])) ∧
    (truncateHistory (h ++ [Msg.mk "user" u, Msg.mk "assistant" a])).length ≤ 20 := by
  have hc2 := chat_append_pair hc u a
  unfold truncateHistory sliceLast
  by_cases hgt : (h ++ [Msg.mk "user" u, Msg.mk "assistant" a]).length > 20
  · rw [if_pos hgt]
    have hlen2 : h.length = 20 := by
      have he := chat_length_even hc
      simp only [List.length_append, List.length_cons, List.length_nil] at hgt
      omega
    have hdrop : (h ++ [Msg.mk "user" u, Msg.mk "assistant" a]).length - 20 = 2 := by
      simp [hlen2]
    rw [hdrop]
    refine ⟨chat_drop_two hc2, ?_⟩
    simp [hlen2]
  · rw [if_neg hgt]
    refine ⟨hc2, ?_⟩
    omega

theorem handle_request_inv {env : Env} {r : Request} {s s' : Session}
    {outs : List Outbound} (hs : SessionInv s)
    (h : handle_request env r s = .ok (s', outs)) : SessionInv s' := by
  rcases r with ⟨t?, c?, e?⟩
  cases t? with
  | none => simp [handle_request] at h
  | some t =>
    by_cases h1 : t = "text_input"
    · subst h1
      cases c? with
      | none => simp [handle_request] at h
      | some c =>
        cases hr : env.retr c with
        | error e => simp [handle_request, hr] at h
        | ok docs =>
          simp [handle_request, hr] at h
          obtain ⟨h2, -⟩ := h
          subst h2
          exact ⟨(truncate_step hs.1 hs.2 _ _).1, (truncate_step hs.1 hs.2 _ _).2⟩
    · by_cases h2 : t = "emotion_update"
      · subst h2
        cases e? with
        | none =>
          simp [handle_request, h1] at h
          obtain ⟨h3, -⟩ := h
          subst h3
          exact hs
        | some e =>
          simp [handle_request, h1] at h
          obtain ⟨h3, -⟩ := h
          subst h3
          exact hs
      · simp [handle_request, h1, h2] at h
        obtain ⟨h3, -⟩ := h
        subst h3
        exact hs

theorem websocket_loop_inv (env : Env) (requests : List Request) {s : Session}
    (hs : SessionInv s) : SessionInv (websocket_loop env requests s).1 := by
  induction requests generalizing s with
  | nil => simpa [websocket_loop] using hs
  | cons r rest ih =>
    unfold websocket_loop
    cases hh : handle_request env r s with
    | error e => simpa using hs
    | ok p =>
      obtain ⟨s', outs⟩ := p
      simpa using ih (handle_request_inv hs hh)

theorem handle_text_eq (env : Env) (c : String) (s : Session)
    (docs : List String) (hr : env.retr c = .ok docs) :
    handle_request env (mkTextInput c) s =
      .ok (⟨truncateHistory (s.history ++
              [Msg.mk "user" (format_prompt (joinChunks docs) c),
               Msg.mk "assistant" (generate_response env.http
                 (format_prompt (joinChunks docs) c)
                 (s.history ++ [Msg.mk "user" (format_prompt (joinChunks docs) c)]))]),
            s.emotion⟩,
           [Outbound.response
             (generate_response env.http (format_prompt (joinChunks docs) c)
               (s.history ++ [Msg.mk "user" (format_prompt (joinChunks docs) c)]))
             (env.tts (generate_response env.http (format_prompt (joinChunks docs) c)
               (s.history ++ [Msg.mk "user" (format_prompt (joinChunks docs) c)])))]) := by
  simp [handle_request, mkTextInput, hr]

theorem truncate_last_two (h : List Msg) (x y : Msg) :
    (truncateHistory (h ++ [x, y])).getLast? = some y ∧
    (truncateHistory (h ++ [x, y])).dropLast.getLast? = some x := by
  unfold truncateHistory sliceLast
  by_cases hgt : (h ++ [x, y]).length > 20
  · rw [if_pos hgt]
    have hle : (h ++ [x, y]).length - 20 ≤ h.length := by
      simp only [List.length_append, List.length_cons, List.length_nil]
      omega
    rw [List.drop_append_of_le_length hle]
    have hform : h.drop ((h ++ [x, y]).length - 20) ++ [x, y] =
        (h.drop ((h ++ [x, y]).length - 20) ++ [x]) ++ [y] := by simp
    rw [hform]
    exact ⟨List.getLast?_concat _, by rw [List.dropLast_concat]; exact List.getLast?_concat _⟩
  · rw [if_neg hgt]
    have hform : h ++ [x, y] = (h ++ [x]) ++ [y] := by simp
    rw [hform]
    exact ⟨List.getLast?_concat _, by rw [List.dropLast_concat]; exact List.getLast?_concat _⟩

/-! ## Claim theorems -/

/-- C1 (counterexample): with a retrieval provider that raises, a
`text_input` gets no reply at all — `retriever.get_relevant_documents` is
not wrapped in a try, so the exception escapes the loop body, is caught by
the connection-level handler, and the receive loop ends with no `response`
frame: the exchange aborts instead of degrading to empty context. -/
theorem C1_counterexample :
    handle_request envRetrFail (mkTextInput "hello") emptySession =
      .error .retrievalError ∧
    websocket_loop envRetrFail [mkTextInput "hello"] emptySession =
      (emptySession, []) := by
  exact ⟨rfl, rfl⟩

/-- C1 (amended): if the retrieval provider returns an empty sequence, the
retrieved context is treated as empty and the exchange continues, emitting
exactly one `response`; but if the provider call errors, the exception
propagates out of the message handler, the receive loop ends, and no reply
is emitted. -/
theorem C1_amended_retrieval (env : Env) (c : String) (s : Session) :
    (env.retr c = .ok [] → EmptyRetrievalContinues env c s) ∧
    (env.retr c = .error () → RetrievalErrorAborts env c s) := by
  constructor
  · intro hr
    have heq := handle_text_eq env c s [] hr
    rw [show joinChunks [] = "" from rfl] at heq
    exact ⟨_, heq⟩
  · intro hr
    refine ⟨by simp [handle_request, mkTextInput, hr], fun rest => ?_⟩
    unfold websocket_loop
    simp [handle_request, mkTextInput, hr]

/-- Witness for the C1 amended theorem: both hypotheses discharged at
concrete inputs, one environment per branch. -/
theorem C1_amended_witness :
    (envOk.retr "hi" = .ok [] ∧ EmptyRetrievalContinues envOk "hi" emptySession) ∧
    (envRetrFail.retr "hi" = .error () ∧
      RetrievalErrorAborts envRetrFail "hi" emptySession) :=
  ⟨⟨rfl, (C1_amended_retrieval envOk "hi" emptySession).1 rfl⟩,
   ⟨rfl, (C1_amended_retrieval envRetrFail "hi" emptySession).2 rfl⟩⟩

/-- C2 (counterexample): a message missing the required `"type"` key is not
merely ignored — the `KeyError` ends the receive loop, so a following
well-formed `text_input` on the same connection is never processed and
yields no reply; the same `text_input` sent alone does produce output. -/
theorem C2_counterexample :
    websocket_loop envOk [⟨none, some "hi", none⟩, mkTextInput "hi"] emptySession
      = (emptySession, []) ∧
    (websocket_loop envOk [mkTextInput "hi"] emptySession).2 ≠ [] := by
  refine ⟨rfl, ?_⟩
  decide

/-- C2 (amended): an inbound message with an *unrecognized* type tag is
ignored — no reply, no session mutation, and the loop continues with later
messages; but a message missing the `"type"` key, or a `text_input`
missing `"content"`, raises a `KeyError` that the connection-level handler
catches, ending the receive loop: no reply and no mutation, yet subsequent
messages are not processed. -/
theorem C2_amended (env : Env) (s : Session) (r : Request) :
    ((r.type? = none ∨ (r.type? = some "text_input" ∧ r.content? = none)) →
      MissingFieldAborts env s r) ∧
    (∀ t, r.type? = some t → t ≠ "text_input" → t ≠ "emotion_update" →
      UnknownTagIgnored env s r) := by
  rcases r with ⟨t?, c?, e?⟩
  constructor
  · rintro (h1 | ⟨h1, h2⟩)
    · subst h1
      refine ⟨rfl, fun rest => ?_⟩
      unfold websocket_loop
      rfl
    · subst h1
      subst h2
      refine ⟨rfl, fun rest => ?_⟩
      unfold websocket_loop
      rfl
  · intro t ht h1 h2
    simp only at ht
    subst ht
    have hh : handle_request env ⟨some t, c?, e?⟩ s = .ok (s, []) := by
      simp [handle_request, h1, h2]
    refine ⟨hh, fun rest => ?_⟩
    have hstep : websocket_loop env (⟨some t, c?, e?⟩ :: rest) s =
        match handle_request env ⟨some t, c?, e?⟩ s with
        | .error _ => (s, [])
        | .ok (s', outs) =>
          ((websocket_loop env rest s').1, outs ++ (websocket_loop env rest s').2) := rfl
    rw [hstep, hh]
    rfl

/-- Witness for the C2 amended theorem: a frame with no `"type"` key ends
the loop; a frame with the unknown tag `"ping"` is skipped. -/
theorem C2_amended_witness :
    MissingFieldAborts envOk emptySession ⟨none, some "hi", none⟩ ∧
    UnknownTagIgnored envOk emptySession ⟨some "ping", none, none⟩ :=
  ⟨(C2_amended envOk emptySession ⟨none, some "hi", none⟩).1 (Or.inl rfl),
   (C2_amended envOk emptySession ⟨some "ping", none, none⟩).2 "ping" rfl
     (by decide) (by decide)⟩

/-- C8 (confirmed): when retrieval returns no passages, the augmented
prompt is exactly the fixed instruction template around the literal
question (no passage content), and that prompt is the user-role entry the
exchange persists. -/
theorem C8_empty_context_prompt (env : Env) (c : String) (s : Session)
    (hr : env.retr c = .ok []) : EmptyContextPrompt env c s := by
  refine ⟨rfl, ?_, ?_⟩
  · show format_prompt "" c = _
    unfold format_prompt
    rw [String.append_empty]
  · refine ⟨_, _, _, handle_text_eq env c s [] hr, ?_⟩
    exact (truncate_last_two s.history _ _).2

/-- Witness for C8 at a concrete environment and question. -/
theorem C8_witness :
    envOk.retr "測試" = .ok [] ∧ EmptyContextPrompt envOk "測試" emptySession :=
  ⟨rfl, C8_empty_context_prompt envOk "測試" emptySession rfl⟩

set_option maxRecDepth 100000 in
/-- C3 (counterexample): on the sixth `text_input` of a connection the
history passed to the provider has 11 entries, and the `messages` actually
sent are the persona plus only the last **10** of them —
`generate_response` slices `conversation_history[-10:]` and the
orchestrator passes the history *before* truncating it to 20 — so they
differ from the claim's persona-plus-history-truncated-to-20
(`claimedMessages`). A counting LLM stub observes 11 messages, not the
12 the claim implies. -/
theorem C3_counterexample :
    buildMessages character_persona (format_prompt "" "q") historyAtSixthCall ≠
      claimedMessages historyAtSixthCall ∧
    (buildMessages character_persona (format_prompt "" "q") historyAtSixthCall).length
      = 11 ∧
    (claimedMessages historyAtSixthCall).length = 12 ∧
    (websocket_loop envCount (List.replicate 6 (mkTextInput "q"))
        emptySession).2.getLast? = some (Outbound.response "11" "") := by
  exact ⟨by decide, by decide, by decide, by decide⟩

/-- C3 (amended): the provider is invoked with the fixed system persona
plus the last 10 entries of the (not yet truncated) history; the latest
history entry carries the augmented prompt, which is not duplicated in the
messages. -/
theorem C3_amended (env : Env) (c : String) (s : Session) (docs : List String)
    (hr : env.retr c = .ok docs) : LLMSeesLastTen env c s docs := by
  refine ⟨?_, handle_text_eq env c s docs hr⟩
  have hlast : (s.history ++ [Msg.mk "user" (format_prompt (joinChunks docs) c)]).getLast?
      = some (Msg.mk "user" (format_prompt (joinChunks docs) c)) :=
    List.getLast?_concat _
  simp [buildMessages, hlast]

/-- Witness for the C3 amended theorem at a concrete environment. -/
theorem C3_amended_witness :
    envOk.retr "hi" = .ok [] ∧ LLMSeesLastTen envOk "hi" emptySession [] :=
  ⟨rfl, C3_amended envOk "hi" emptySession [] rfl⟩

/-- C5 (counterexample): the apology emitted depends on the failure kind —
a raised `RequestException` (network error or non-2xx) yields the network
apology, a raised `json.JSONDecodeError` (malformed response) yields the
format apology, and the two strings differ — so there is no single fixed
apology string covering the claim's listed failure kinds. In each case the
exchange does emit exactly one `response`. -/
theorem C5_counterexample :
    (websocket_loop envNet [mkTextInput "hi"] emptySession).2 =
      [Outbound.response apology_network ""] ∧
    (websocket_loop envJson [mkTextInput "hi"] emptySession).2 =
      [Outbound.response apology_format ""] ∧
    apology_network ≠ apology_format := by
  exact ⟨by decide, by decide, by decide⟩

/-- C5 (amended): when the LLM HTTP layer deterministically fails with any
failure outcome `o`, the exchange still emits exactly one `response` whose
text is the fixed apology string for `o`'s exception class (independent of
the user input), and that same apology is appended to the history as the
assistant-role entry. -/
theorem C5_amended (env : Env) (c : String) (s : Session) (docs : List String)
    (o : HTTPOutcome) (hfail : o.isFailure = true)
    (hhttp : ∀ m, env.http m = o) (hr : env.retr c = .ok docs) :
    ApologyExchange env c s o := by
  have heq := handle_text_eq env c s docs hr
  have hresp : generate_response env.http (format_prompt (joinChunks docs) c)
      (s.history ++ [Msg.mk "user" (format_prompt (joinChunks docs) c)])
      = outcomeText o := by
    unfold generate_response
    rw [hhttp]
  rw [hresp] at heq
  exact ⟨_, heq, (truncate_last_two s.history _ _).1⟩

/-- Witness for the C5 amended theorem: a deterministically raising HTTP
layer at a concrete input. -/
theorem C5_amended_witness :
    HTTPOutcome.isFailure .requestError = true ∧
    (∀ m, envNet.http m = .requestError) ∧
    envNet.retr "hi" = .ok [] ∧
    ApologyExchange envNet "hi" emptySession .requestError :=
  ⟨rfl, fun _ => rfl, rfl,
   C5_amended envNet "hi" emptySession [] .requestError rfl (fun _ => rfl) rfl⟩

/-- C4 (confirmed): over any sequence of inbound messages on one connection
starting from a fresh session, the conversation history after each fully
handled message has length at most 20 and strictly alternates
user/assistant roles starting with a user entry; the truncation step keeps
a suffix of the history, i.e. evicts the oldest entries first. -/
theorem C4_history_invariant (env : Env) (requests : List Request) :
    (websocket_loop env requests emptySession).1.history.length ≤ 20 ∧
    Chat (websocket_loop env requests emptySession).1.history ∧
    ∀ h : List Msg, truncateHistory h <:+ h := by
  have hinv := websocket_loop_inv env requests (s := emptySession)
    ⟨Chat.nil, by simp [emptySession]⟩
  refine ⟨hinv.2, hinv.1, fun h => ?_⟩
  unfold truncateHistory sliceLast
  split
  · exact List.drop_suffix _ _
  · exact List.suffix_refl _

/-- C9 (confirmed): an `emotion_update` message carrying emotion `E` stores
`E` as the session's emotional state (overwriting any previous value),
emits no outbound frame, and leaves the conversation history unchanged. -/
theorem C9_emotion_update (env : Env) (e : String) (c? : Option String)
    (s : Session) :
    handle_request env ⟨some "emotion_update", c?, some e⟩ s =
      .ok (⟨s.history, some e⟩, []) := by
  simp [handle_request]

/-- C10 (confirmed): `trigger_emotion_interaction` never touches the
session (in particular the conversation history is unchanged); only the
`"sad"` and `"angry"` table entries produce an `emotion_interaction`
frame, any other label produces nothing; and the LLM is invoked with an
empty conversation history — the `messages` it assembles from an empty
history are exactly the fixed persona plus the lookup prompt. -/
theorem C10_emotion_interaction (env : Env) (e : String) (s : Session) :
    (trigger_emotion_interaction env e s).1 = s ∧
    (trigger_emotion_interaction env e s).2 =
      (if e = "sad" then
        [Outbound.emotionInteraction e (generate_response env.http sad_prompt [])
          (env.tts (generate_response env.http sad_prompt []))]
       else if e = "angry" then
        [Outbound.emotionInteraction e (generate_response env.http angry_prompt [])
          (env.tts (generate_response env.http angry_prompt []))]
       else []) ∧
    ∀ p, buildMessages character_persona p [] =
      [Msg.mk "system" character_persona, Msg.mk "user" p] := by
  refine ⟨?_, ?_, fun p => ?_⟩
  · by_cases h1 : e = "sad" <;> by_cases h2 : e = "angry" <;>
      simp [trigger_emotion_interaction, h1, h2]
  · by_cases h1 : e = "sad" <;> by_cases h2 : e = "angry" <;>
      simp [trigger_emotion_interaction, h1, h2]
  · simp [buildMessages]

theorem sanitize_idem (isCcategory : Char → Bool) (t : String) :
    sanitize_text isCcategory (sanitize_text isCcategory t) =
      sanitize_text isCcategory t := by
  simp [sanitize_text, List.filter_filter, Bool.and_self]

theorem lookup_none_iff {cache : Cache} {t : String} :
    lookupCache cache t = none ↔ ∀ p ∈ cache, p.1 ≠ t := by
  unfold lookupCache
  simp [List.find?_eq_none]

theorem sane_lookup_none {isCcategory : Char → Bool} {cache : Cache} {t : String}
    (h : sanitizedKeys isCcategory cache) (ht : sanitize_text isCcategory t ≠ t) :
    lookupCache cache t = none := by
  rw [lookup_none_iff]
  intro p hp hpt
  exact ht (hpt ▸ h p hp)

theorem mem_insertCache {cache : Cache} {k v : String} {p : String × String}
    (hp : p ∈ insertCache cache k v) : p ∈ cache ∨ p.1 = k := by
  unfold insertCache at hp
  split at hp
  · obtain ⟨q, hq, hqe⟩ := List.mem_map.mp hp
    by_cases hqk : q.1 = k
    · right
      rw [← hqe]
      simp [hqk]
    · left
      rw [← hqe]
      simp only [hqk, if_false, ite_false, if_neg, not_false_iff]
      exact hq
  · rcases List.mem_append.mp hp with h | h
    · left; exact h
    · right
      simp only [List.mem_singleton] at h
      rw [h]

theorem mem_update_cache {cache_size : Nat} {cache : Cache} {k v : String}
    {p : String × String} (hp : p ∈ update_cache cache_size cache k v) :
    p ∈ cache ∨ p.1 = k := by
  simp only [update_cache] at hp
  split at hp
  · exact mem_insertCache (List.mem_of_mem_drop hp)
  · exact mem_insertCache hp

theorem update_cache_sane {isCcategory : Char → Bool} {cache_size : Nat}
    {cache : Cache} {t v : String} (h : sanitizedKeys isCcategory cache) :
    sanitizedKeys isCcategory
      (update_cache cache_size cache (sanitize_text isCcategory t) v) := by
  intro p hp
  rcases mem_update_cache hp with h1 | h1
  · exact h p h1
  · rw [h1, sanitize_idem]

theorem generate_speech_sane {isCcategory : Char → Bool} {cache_size : Nat}
    {synth : String → Option String} {cache : Cache} {t : String}
    (h : sanitizedKeys isCcategory cache) :
    sanitizedKeys isCcategory
      (generate_speech isCcategory true cache_size synth cache t).2 := by
  unfold generate_speech
  simp only [if_pos rfl]
  cases hl : lookupCache cache t with
  | some cached => exact h
  | none =>
    cases hs : synth (sanitize_text isCcategory t) with
    | none => exact h
    | some audio => exact update_cache_sane h

theorem runSpeechCalls_sane (isCcategory : Char → Bool) (cache_size : Nat)
    (synth : String → Option String) (ts : List String) {cache : Cache}
    (h : sanitizedKeys isCcategory cache) :
    sanitizedKeys isCcategory
      (runSpeechCalls isCcategory cache_size synth cache ts) := by
  induction ts generalizing cache with
  | nil => exact h
  | cons t ts ih =>
    unfold runSpeechCalls
    exact ih (generate_speech_sane h)

theorem find?_none_of_lookup {cache : Cache} {t : String}
    (hmiss : lookupCache cache t = none) :
    List.find? (fun p => p.1 = t) cache = none := by
  unfold lookupCache at hmiss
  cases hf : List.find? (fun p => p.1 = t) cache with
  | none => rfl
  | some q => rw [hf] at hmiss; simp at hmiss

theorem lookup_append_single {cache : Cache} {t audio : String}
    (hmiss : lookupCache cache t = none) :
    lookupCache (cache ++ [(t, audio)]) t = some audio := by
  unfold lookupCache
  rw [List.find?_append, find?_none_of_lookup hmiss]
  simp [List.find?]

theorem insert_when_absent {cache : Cache} {k v : String}
    (habs : lookupCache cache k = none) :
    insertCache cache k v = cache ++ [(k, v)] := by
  unfold insertCache
  rw [if_neg]
  intro hany
  obtain ⟨p, hp, hpk⟩ := List.any_eq_true.mp hany
  exact (lookup_none_iff.mp habs p hp) (by simpa using hpk)

theorem update_no_trim {cache_size : Nat} {cache : Cache} {k v : String}
    (habs : lookupCache cache k = none) (hlen : cache.length < cache_size) :
    update_cache cache_size cache k v = cache ++ [(k, v)] := by
  unfold update_cache
  rw [insert_when_absent habs, if_neg]
  simp only [List.length_append, List.length_cons, List.length_nil, not_lt]
  omega

theorem insert_length (cache : Cache) (k v : String) :
    (insertCache cache k v).length ≤ cache.length + 1 := by
  unfold insertCache
  split
  · simp
  · simp

theorem update_length {cache_size : Nat} {cache : Cache}
    (h : cache.length ≤ cache_size) (k v : String) :
    (update_cache cache_size cache k v).length ≤ cache_size := by
  have hins := insert_length cache k v
  simp only [update_cache]
  split
  · simp only [List.length_drop]
    omega
  · rename_i hng
    omega

theorem foldInserts_length {cache_size : Nat} (inserts : List (String × String))
    {c0 : Cache} (h : c0.length ≤ cache_size) :
    (foldInserts cache_size c0 inserts).length ≤ cache_size := by
  induction inserts generalizing c0 with
  | nil => simpa [foldInserts] using h
  | cons kv rest ih =>
    simp only [foldInserts, List.foldl_cons]
    exact ih (update_length h kv.1 kv.2)

/-- C6 (confirmed): `generate_speech` looks the cache up under the *raw*
input text but stores under the *sanitized* text. Hence after a successful,
cache-filling call with text `t`: if `t` is already sanitized, a second
call with `t` hits the cache and returns the cached audio; if `t` is not a
fixed point of `sanitize_text`, the raw-text lookup misses — the second
call, and indeed any lookup of `t` against a cache built solely by
`generate_speech`, never hits. -/
theorem C6_cache_raw_lookup (isCcategory : Char → Bool)
    (synth : String → Option String) (cache_size : Nat) (cache : Cache)
    (t audio : String) (hmiss : lookupCache cache t = none)
    (hlen : cache.length < cache_size)
    (hsynth : synth (sanitize_text isCcategory t) = some audio) :
    SpeechSecondCall isCcategory synth cache_size cache t audio := by
  have hfirst : generate_speech isCcategory true cache_size synth cache t =
      (audio, update_cache cache_size cache (sanitize_text isCcategory t) audio) := by
    simp [generate_speech, hmiss, hsynth]
  refine ⟨by rw [hfirst], ?_, ?_, ?_⟩
  · intro hfix
    rw [hfirst]
    have hcache : update_cache cache_size cache (sanitize_text isCcategory t) audio =
        cache ++ [(t, audio)] := by
      rw [hfix]
      exact update_no_trim hmiss hlen
    simp only [hcache]
    simp [generate_speech, lookup_append_single hmiss]
  · intro hne
    rw [hfirst]
    rw [lookup_none_iff]
    intro p hp hpt
    rcases mem_update_cache hp with h1 | h1
    · exact (lookup_none_iff.mp hmiss p h1) hpt
    · exact hne (h1.symm.trans hpt)
  · intro ts hne
    exact sane_lookup_none
      (runSpeechCalls_sane isCcategory cache_size synth ts
        (by intro p hp; cases hp))
      hne

/-- Witness for C6 at concrete inputs: a sanitized text (`"hi"`) and a text
starting with an emoji in the range `sanitize_text` removes. -/
theorem C6_witness :
    (lookupCache [] "hi" = none ∧ ([] : Cache).length < 100 ∧
      (fun _ => some "A" : String → Option String)
        (sanitize_text (fun _ => false) "hi") = some "A" ∧
      SpeechSecondCall (fun _ => false) (fun _ => some "A") 100 [] "hi" "A") ∧
    (lookupCache [] "😀hi" = none ∧ ([] : Cache).length < 100 ∧
      (fun _ => some "A" : String → Option String)
        (sanitize_text (fun _ => false) "😀hi") = some "A" ∧
      sanitize_text (fun _ => false) "😀hi" ≠ "😀hi" ∧
      SpeechSecondCall (fun _ => false) (fun _ => some "A") 100 [] "😀hi" "A") :=
  ⟨⟨rfl, by decide, rfl,
    C6_cache_raw_lookup (fun _ => false) (fun _ => some "A") 100 [] "hi" "A"
      rfl (by decide) rfl⟩,
   ⟨rfl, by decide, rfl, by decide,
    C6_cache_raw_lookup (fun _ => false) (fun _ => some "A") 100 [] "😀hi" "A"
      rfl (by decide) rfl⟩⟩

/-- C7 (confirmed): starting from any cache within capacity, every sequence
of `_update_cache` insertions keeps the cache at or below capacity; the
trim step keeps a suffix of the insertion-ordered dict (so the
oldest-inserted entries are the ones deleted — insertion order, not access
order); the default capacity is 100. -/
theorem C7_cache_capacity (cache_size : Nat) (c0 : Cache)
    (inserts : List (String × String)) (h0 : c0.length ≤ cache_size) :
    CacheBound cache_size c0 inserts := by
  refine ⟨foldInserts_length inserts h0, fun c k v => ?_, rfl⟩
  simp only [update_cache]
  split
  · exact List.drop_suffix _ _
  · exact List.suffix_refl _

/-- Witness for C7 at the default capacity and a concrete insertion. -/
theorem C7_witness :
    ([] : Cache).length ≤ cache_size_default ∧
    CacheBound cache_size_default [] [("k", "v")] :=
  ⟨by decide, C7_cache_capacity cache_size_default [] [("k", "v")] (by decide)⟩

end Vtuber
